import Mathlib

/-!
Shallow embedding of the `abort_if` procedural macro (src/src/lib.rs).
The macro rewrites one annotated function into two sibling function
declarations: the original (negative) variant gated by `#[cfg(not(arg))]`
for each attribute argument, and an `alternative` (positive) variant gated
by `#[cfg(arg)]`, whose body starts with an abort statement.
-/

namespace AbortIf

/-- A leaf of a `cfg` predicate: a bare flag such as `debug_assertions`,
or a key/value pair such as `feature = "x"`. -/
inductive CfgAtom where
  | flag : String → CfgAtom
  | kv : String → String → CfgAtom
deriving DecidableEq

mutual

/-- A `cfg` condition expression as accepted inside `#[abort_if(...)]`:
an atom, `not(p)`, `any(ps)` or `all(ps)` (n-ary lists encoded by the
mutual `CfgPredList`).  This mirrors the shape of the `syn` `NestedMeta`
arguments the macro receives and interpolates verbatim. -/
inductive CfgPred where
  | atom : CfgAtom → CfgPred
  | not : CfgPred → CfgPred
  | any : CfgPredList → CfgPred
  | all : CfgPredList → CfgPred
deriving DecidableEq

inductive CfgPredList where
  | nil : CfgPredList
  | cons : CfgPred → CfgPredList → CfgPredList
deriving DecidableEq

end

mutual

/-- Host conditional-compilation resolution of a `cfg` predicate under an
assignment `σ` of truth values to the atoms (this is rustc's semantics;
the macro itself never evaluates predicates): `any` is n-ary OR, `all`
n-ary AND. -/
def CfgPred.eval (σ : CfgAtom → Bool) : CfgPred → Bool
  | .atom a => σ a
  | .not p => !(p.eval σ)
  | .any ps => CfgPredList.evalAny σ ps
  | .all ps => CfgPredList.evalAll σ ps

def CfgPredList.evalAny (σ : CfgAtom → Bool) : CfgPredList → Bool
  | .nil => false
  | .cons p ps => CfgPred.eval σ p || CfgPredList.evalAny σ ps

def CfgPredList.evalAll (σ : CfgAtom → Bool) : CfgPredList → Bool
  | .nil => true
  | .cons p ps => CfgPred.eval σ p && CfgPredList.evalAll σ ps

end

/-- A Rust statement of the generated code: the two abort statements the
macro can build with `parse_str`, or an uninterpreted source statement of
the original body. -/
inductive Stmt where
  | compileErrorCall : String → Stmt
  | customAbortCall : String → Stmt
  | src : String → Stmt
deriving DecidableEq

/-- An attribute on a function item: a `#[cfg(p)]` gate, or any other
attribute (uninterpreted). -/
inductive Attr where
  | cfg : CfgPred → Attr
  | other : String → Attr
deriving DecidableEq

/-- A function signature as captured by `syn::Signature`: name,
generic/lifetime parameters, value parameters and return type. -/
structure Sig where
  name : String
  generics : List String
  params : List String
  ret : String
deriving DecidableEq

/-- `syn::ItemFn`: attributes, visibility, signature, body statements. -/
structure ItemFn where
  attrs : List Attr
  vis : String
  sig : Sig
  block : List Stmt
deriving DecidableEq

/-- An annotated item: a function, or any other item kind (struct, module,
trait, ...) identified by its kind name. -/
inductive Item where
  | fn : ItemFn → Item
  | other : String → Item
deriving DecidableEq

/-- The two compile-time features of the crate that the macro reads with
`cfg!`: `custom_abort` (soft abort mode) and `keep_going` (continuation). -/
structure Config where
  custom_abort : Bool
  keep_going : Bool
deriving DecidableEq

/-- lib.rs lines 79-84 and 95: the abort statement.  With feature
`custom_abort` it is `custom_abort_error!("Condition was met.");`,
otherwise `compile_error!("Condition was met.");` (the string is built at
lines 81/83 and parsed into a statement by `parse_str` at line 95). -/
def throwErrStmt (cfg : Config) : Stmt :=
  if cfg.custom_abort then Stmt.customAbortCall "Condition was met."
  else Stmt.compileErrorCall "Condition was met."

/-- lib.rs lines 74-113, `abort_if` after the input has parsed as a
function.  Returns (negative variant, positive variant), emitted in that
order.  Mirrors the source step by step:
* lines 86-98: `alternative` gets no attrs, cloned vis and sig, and a body
  holding only the abort statement;
* lines 100-102: with feature `keep_going`, `Vec::append` moves the
  original statements onto the end of `alternative`'s body, leaving
  `input`'s body empty (Rust's `append` drains its argument);
* lines 104-107: each argument `arg` pushes `#[cfg(not(arg))]` onto
  `input.attrs` and `#[cfg(arg)]` onto `alternative.attrs`. -/
def abort_if (cfg : Config) (args : List CfgPred) (input0 : ItemFn) :
    ItemFn × ItemFn :=
  let alternative : ItemFn :=
    { attrs := [], vis := input0.vis, sig := input0.sig,
      block := [throwErrStmt cfg] }
  let input1 : ItemFn :=
    if cfg.keep_going then { input0 with block := [] } else input0
  let alternative1 : ItemFn :=
    if cfg.keep_going then
      { alternative with block := alternative.block ++ input0.block }
    else alternative
  let input2 : ItemFn :=
    { input1 with
      attrs := input1.attrs ++ args.map (fun a => Attr.cfg (CfgPred.not a)) }
  let alternative2 : ItemFn :=
    { alternative1 with
      attrs := alternative1.attrs ++ args.map (fun a => Attr.cfg a) }
  (input2, alternative2)

/-- lib.rs line 76: `parse_macro_input!(input as ItemFn)` fails with a
compile-time parse error when the annotated item is not a function; only
then does the macro body run. -/
def abort_if_entry (cfg : Config) (args : List CfgPred) (item : Item) :
    Except String (ItemFn × ItemFn) :=
  match item with
  | .fn f => Except.ok (abort_if cfg args f)
  | .other kind => Except.error ("expected a function item, found " ++ kind)

/-- Whether one attribute lets an item survive conditional compilation
under assignment `σ`: a `#[cfg(p)]` gate keeps the item iff `p` holds;
non-`cfg` attributes never remove the item. -/
def Attr.holds (σ : CfgAtom → Bool) : Attr → Bool
  | .cfg p => p.eval σ
  | .other _ => true

/-- rustc keeps a declaration iff every `#[cfg(...)]` attribute on it
evaluates to true. -/
def selected (σ : CfgAtom → Bool) (f : ItemFn) : Bool :=
  f.attrs.all (Attr.holds σ)

/-- Whether an attribute is a `#[cfg(...)]` gate. -/
def Attr.isCfgAttr : Attr → Bool
  | .cfg _ => true
  | .other _ => false

/-- Shorthand for the bare-flag condition term `a`. -/
def flagA : CfgPred := CfgPred.atom (CfgAtom.flag "a")

/-- Shorthand for the bare-flag condition term `b`. -/
def flagB : CfgPred := CfgPred.atom (CfgAtom.flag "b")

/-- A flag assignment making `a` true and everything else false. -/
def sigmaA : CfgAtom → Bool := fun x => x = CfgAtom.flag "a"

/-- A sample annotated function `pub fn foo(x: u8) -> u8` carrying one
non-`cfg` attribute and a two-statement body. -/
def exFn : ItemFn :=
  { attrs := [Attr.other "inline"], vis := "pub",
    sig := { name := "foo", generics := [], params := ["x: u8"], ret := "u8" },
    block := [Stmt.src "body();", Stmt.src "more();"] }

/-- The same sample function with an empty attribute list. -/
def exFnPlain : ItemFn :=
  { exFn with attrs := [] }

theorem abort_if_neg_attrs (cfg : Config) (args : List CfgPred) (f : ItemFn) :
    (abort_if cfg args f).1.attrs =
      f.attrs ++ args.map (fun t => Attr.cfg (CfgPred.not t)) := by
  rcases cfg with ⟨ca, kg⟩
  cases kg <;> simp [abort_if]

theorem abort_if_pos_attrs (cfg : Config) (args : List CfgPred) (f : ItemFn) :
    (abort_if cfg args f).2.attrs = args.map (fun t => Attr.cfg t) := by
  rcases cfg with ⟨ca, kg⟩
  cases kg <;> simp [abort_if]

theorem abort_if_neg_block (cfg : Config) (args : List CfgPred) (f : ItemFn) :
    (abort_if cfg args f).1.block = if cfg.keep_going then [] else f.block := by
  rcases cfg with ⟨ca, kg⟩
  cases kg <;> simp [abort_if]

theorem abort_if_pos_block (cfg : Config) (args : List CfgPred) (f : ItemFn) :
    (abort_if cfg args f).2.block =
      throwErrStmt cfg :: (if cfg.keep_going then f.block else []) := by
  rcases cfg with ⟨ca, kg⟩
  cases kg <;> simp [abort_if]

theorem abort_if_vis_sig (cfg : Config) (args : List CfgPred) (f : ItemFn) :
    (abort_if cfg args f).1.vis = f.vis ∧ (abort_if cfg args f).1.sig = f.sig ∧
    (abort_if cfg args f).2.vis = f.vis ∧ (abort_if cfg args f).2.sig = f.sig := by
  rcases cfg with ⟨ca, kg⟩
  cases kg <;> simp [abort_if]

/-- C1 (counterexample): with the two-term condition list `[a, b]` and the
assignment making `a` true and `b` false, conditional-compilation
resolution of the attached predicates selects NEITHER variant — the
negative variant carries `cfg(not(a))` (false) and the positive carries
`cfg(b)` (false) — refuting "exactly one ... never zero" for lists of two
or more top-level terms. -/
theorem C1_two_terms_zero_selected :
    selected sigmaA (abort_if ⟨false, false⟩ [flagA, flagB] exFnPlain).1 = false ∧
    selected sigmaA (abort_if ⟨false, false⟩ [flagA, flagB] exFnPlain).2 = false := by
  decide

/-- C1 (amended): for a nonempty condition list the two variants are never
both selected, and for a single-term condition list exactly one of them is
selected; with two or more terms an assignment giving the terms differing
truth values selects zero variants (see the counterexample). -/
theorem C1_exclusivity_amended (cfg : Config) (σ : CfgAtom → Bool)
    (t : CfgPred) (ts : List CfgPred) (f : ItemFn) (hattrs : f.attrs = []) :
    (¬ (selected σ (abort_if cfg (t :: ts) f).1 = true ∧
        selected σ (abort_if cfg (t :: ts) f).2 = true)) ∧
    (ts = [] →
      selected σ (abort_if cfg (t :: ts) f).1 =
        !(selected σ (abort_if cfg (t :: ts) f).2)) := by
  constructor
  · rintro ⟨h1, h2⟩
    rw [selected, abort_if_neg_attrs, hattrs] at h1
    rw [selected, abort_if_pos_attrs] at h2
    simp [Attr.holds, CfgPred.eval] at h1 h2
    exact absurd h2.1 (by simp [h1.1])
  · rintro rfl
    rw [selected, abort_if_neg_attrs, hattrs, selected, abort_if_pos_attrs]
    simp [Attr.holds, CfgPred.eval]

/-- C1 witness: concrete single-term instance of the amended exclusivity
theorem. -/
theorem C1_exclusivity_amended_witness :
    (¬ (selected sigmaA (abort_if ⟨false, false⟩ [flagA] exFnPlain).1 = true ∧
        selected sigmaA (abort_if ⟨false, false⟩ [flagA] exFnPlain).2 = true)) ∧
    ([] = ([] : List CfgPred) →
      selected sigmaA (abort_if ⟨false, false⟩ [flagA] exFnPlain).1 =
        !(selected sigmaA (abort_if ⟨false, false⟩ [flagA] exFnPlain).2)) :=
  C1_exclusivity_amended ⟨false, false⟩ sigmaA flagA [] exFnPlain (by decide)

/-- C2: with the `keep_going` feature enabled, `Vec::append` at lib.rs
line 101 drains the original statements out of `input.block.stmts`, so the
emitted negative variant has an EMPTY body even though the original body
is nonempty — the negative variant's body is not the original body in that
configuration. -/
theorem C2_keep_going_empties_negative_body :
    (abort_if ⟨true, true⟩ [flagA] exFn).1.block = [] ∧ exFn.block ≠ [] := by
  decide

/-- C3: the positive variant's body is the abort statement first, followed
by the original statements in original order exactly when `keep_going` is
enabled, and by nothing otherwise. -/
theorem C3_positive_body (cfg : Config) (args : List CfgPred) (f : ItemFn) :
    (abort_if cfg args f).2.block =
      throwErrStmt cfg :: (if cfg.keep_going then f.block else []) :=
  abort_if_pos_block cfg args f

/-- C4: both emitted variants keep the original function's visibility and
whole signature (name, generic/lifetime parameters, value parameters and
return type). -/
theorem C4_signature_preserved (cfg : Config) (args : List CfgPred) (f : ItemFn) :
    (abort_if cfg args f).1.vis = f.vis ∧ (abort_if cfg args f).1.sig = f.sig ∧
    (abort_if cfg args f).2.vis = f.vis ∧ (abort_if cfg args f).2.sig = f.sig := by
  rcases cfg with ⟨ca, kg⟩
  cases kg <;> simp [abort_if]

/-- C5: every top-level condition term `t` is attached individually,
verbatim (so any nested not/any/all structure inside `t` is preserved
exactly), as `cfg(not(t))` on the negative variant and as `cfg(t)` on the
positive variant; for the list `[a, b]` the negative variant gains
`[cfg(not(a)), cfg(not(b))]` and the positive `[cfg(a), cfg(b)]`. -/
theorem C5_per_term_predicates (cfg : Config) (args : List CfgPred) (f : ItemFn) :
    (abort_if cfg args f).1.attrs =
      f.attrs ++ args.map (fun t => Attr.cfg (CfgPred.not t)) ∧
    (abort_if cfg args f).2.attrs = args.map (fun t => Attr.cfg t) :=
  ⟨abort_if_neg_attrs cfg args f, abort_if_pos_attrs cfg args f⟩

/-- C6: the statement heading the positive variant's body is
`compile_error!("Condition was met.");` (an unconditional compile-time
failure with that fixed message) when the `custom_abort` feature is off,
and `custom_abort_error!("Condition was met.");` (an invocation of the
externally supplied abort macro with the same message) when it is on. -/
theorem C6_abort_statement (cfg : Config) (args : List CfgPred) (f : ItemFn) :
    (abort_if cfg args f).2.block.head? =
      some (if cfg.custom_abort then Stmt.customAbortCall "Condition was met."
            else Stmt.compileErrorCall "Condition was met.") := by
  rw [abort_if_pos_block]
  rfl

/-- C7: an annotated item that is not a function is rejected with a
descriptive compile-time error and no variant is emitted. -/
theorem C7_non_function_rejected (cfg : Config) (args : List CfgPred) (kind : String) :
    abort_if_entry cfg args (Item.other kind) =
      Except.error ("expected a function item, found " ++ kind) :=
  rfl

/-- C8: the transformer is deterministic — identical configurations,
attribute arguments and annotated items always produce identical output
structure. -/
theorem C8_deterministic (c₁ c₂ : Config) (a₁ a₂ : List CfgPred)
    (i₁ i₂ : Item) (hc : c₁ = c₂) (ha : a₁ = a₂) (hi : i₁ = i₂) :
    abort_if_entry c₁ a₁ i₁ = abort_if_entry c₂ a₂ i₂ := by
  rw [hc, ha, hi]

/-- C8 witness: determinism at a concrete run. -/
theorem C8_deterministic_witness :
    abort_if_entry ⟨false, false⟩ [flagA] (Item.fn exFn) =
      abort_if_entry ⟨false, false⟩ [flagA] (Item.fn exFn) :=
  C8_deterministic ⟨false, false⟩ ⟨false, false⟩ [flagA] [flagA]
    (Item.fn exFn) (Item.fn exFn) rfl rfl rfl

/-- C9: with an empty condition list no gating predicate is attached to
either variant (the negative keeps exactly the original attributes, the
positive has none), so when the original function carries no `cfg`
attribute of its own, both same-named declarations survive every flag
assignment. -/
theorem C9_empty_args_both_selected (cfg : Config) (f : ItemFn)
    (h : f.attrs.all (fun a => ! a.isCfgAttr) = true) :
    (abort_if cfg [] f).1.attrs = f.attrs ∧
    (abort_if cfg [] f).2.attrs = [] ∧
    ∀ σ : CfgAtom → Bool,
      selected σ (abort_if cfg [] f).1 = true ∧
      selected σ (abort_if cfg [] f).2 = true := by
  refine ⟨?_, ?_, ?_⟩
  · rw [abort_if_neg_attrs]
    simp
  · rw [abort_if_pos_attrs]
    simp
  · intro σ
    constructor
    · rw [selected, abort_if_neg_attrs]
      simp only [List.map_nil, List.append_nil, List.all_eq_true]
      intro a ha
      have hn := List.all_eq_true.mp h a ha
      cases a with
      | cfg p => simp [Attr.isCfgAttr] at hn
      | other s => rfl
    · rw [selected, abort_if_pos_attrs]
      rfl

/-- C9 witness: the empty-list behavior at a concrete function whose only
attribute is a non-`cfg` one. -/
theorem C9_empty_args_both_selected_witness :
    (abort_if ⟨false, false⟩ [] exFn).1.attrs = exFn.attrs ∧
    (abort_if ⟨false, false⟩ [] exFn).2.attrs = [] ∧
    ∀ σ : CfgAtom → Bool,
      selected σ (abort_if ⟨false, false⟩ [] exFn).1 = true ∧
      selected σ (abort_if ⟨false, false⟩ [] exFn).2 = true :=
  C9_empty_args_both_selected ⟨false, false⟩ exFn (by decide)

/-- C10: the original function's remaining attributes (the guard attribute
itself is consumed by the host before the transformer runs) are retained,
in place, at the front of the negative variant's attribute list, while the
positive variant's attribute list consists solely of the generated gating
predicates. -/
theorem C10_attr_retention (cfg : Config) (args : List CfgPred) (f : ItemFn) :
    (abort_if cfg args f).1.attrs.take f.attrs.length = f.attrs ∧
    ∀ a ∈ (abort_if cfg args f).2.attrs, ∃ t ∈ args, a = Attr.cfg t := by
  constructor
  · rw [abort_if_neg_attrs]
    exact List.take_left f.attrs _
  · rw [abort_if_pos_attrs]
    intro a ha
    rcases List.mem_map.mp ha with ⟨t, ht, rfl⟩
    exact ⟨t, ht, rfl⟩

end AbortIf
